import Mathlib

/-!
Verification of the handle-classification and registration-finalization core of
`esp::metadata::managers::ObjectAttributesManager`
(src/src/esp/metadata/managers/ObjectAttributesManager.cpp).

The translation unit is embedded shallowly:
* external oracles (primitive-attribute existence, filesystem probes, directory
  listing, JSON parsing) become fields of an `Env` record of boolean/listing
  functions;
* the attribute template becomes the record `ObjectAttributes`, float-valued
  fields modelled as exact rationals;
* the Registry's shared mutable maps become the record `RegistryState`, threaded
  explicitly through each operation;
* collaborators of this translation unit that live elsewhere in the repository
  (the shared base manager, `esp/io`) are modelled from the spec; each such
  definition carries a doc comment starting with `Modelled from the spec:`.
-/

set_option autoImplicit false

namespace HabitatObjAttr

/-- The undefined-ID sentinel (`esp::ID_UNDEFINED`). -/
def ID_UNDEFINED : Int := -1

/-- A 3-vector of exact rationals (models `Magnum::Vector3`). -/
structure Vec3 where
  x : Rat
  y : Rat
  z : Rat
deriving DecidableEq, Repr

/-- The two members of `esp::assets::AssetType` this translation unit uses. -/
inductive AssetType where
  | UNKNOWN
  | PRIMITIVE
deriving DecidableEq, Repr

/-- The object attribute template (`esp::metadata::attributes::ObjectAttributes`),
restricted to the fields this translation unit reads or writes. -/
structure ObjectAttributes where
  handle : String
  id : Int
  renderAssetHandle : String
  collisionAssetHandle : String
  renderAssetType : AssetType
  collisionAssetType : AssetType
  renderAssetIsPrimitive : Bool
  collisionAssetIsPrimitive : Bool
  margin : Rat
  scale : Vec3
  mass : Rat
  COM : Vec3
  inertia : Vec3
  boundingBoxCollisions : Bool
  joinCollisionMeshes : Bool
  computeCOMFromShape : Bool
  useMeshCollision : Bool
  orientUp : Vec3
  orientFront : Vec3
  isDirty : Bool
deriving DecidableEq, Repr

/-- A parsed object configuration document, restricted to the recognized fields
of spec section 6; each field is `some v` exactly when the key is present. -/
structure JsonDoc where
  mass : Option Rat := none
  useBoundingBoxForCollision : Option Bool := none
  joinCollisionMeshes : Option Bool := none
  inertia : Option Vec3 := none
  COM : Option Vec3 := none
deriving DecidableEq, Repr

/-- The external oracles this translation unit consults:
primitive-attribute existence and file-name validity (base-manager queries),
the Corrade filesystem probes and sorted directory listing, and the JSON
document loader. All are pure queries here (spec section 4.1: no side effects,
no mutation of either oracle). -/
structure Env where
  isValidPrimitiveAttributes : String → Bool
  isValidFileName : String → Bool
  isDirectory : String → Bool
  existsPath : String → Bool
  listSorted : String → List String
  joinPath : String → String → String
  parseDoc : String → Option JsonDoc

/-- The Registry's shared mutable state: the primary template library
(`id → handle`, owned by the shared base collaborator), the two
origin-partitioned secondary maps, the protected-handle set, and the
fresh-ID counter. -/
structure RegistryState where
  templateLibrary : List (Int × String)
  physicsSynthObjTmpltLibByID : List (Int × String)
  physicsFileObjTmpltLibByID : List (Int × String)
  undeletableObjectNames : List String
  nextTemplateID : Nat
deriving DecidableEq, Repr

/-- The empty Registry state. -/
def st0 : RegistryState :=
  { templateLibrary := []
    physicsSynthObjTmpltLibByID := []
    physicsFileObjTmpltLibByID := []
    undeletableObjectNames := []
    nextTemplateID := 0 }

/-! ### String helpers (models of the Corrade utilities the source calls) -/

/-- Does `pat` occur as a contiguous sublist of `l`?  Models
`std::string::find(pat) != npos` over the character data. -/
def containsSub (pat : List Char) : List Char → Bool
  | [] => pat.isPrefixOf []
  | c :: t => pat.isPrefixOf (c :: t) || containsSub pat t

/-- `std::string::find(pat) != npos` on strings. -/
def strFind (s pat : String) : Bool :=
  containsSub pat.data s.data

/-- Models `Cr::Utility::String::lowercase` (ASCII lowercasing). -/
def strLowercase (s : String) : String :=
  ⟨s.data.map Char.toLower⟩

/-- Models `Cr::Utility::String::endsWith` (case-sensitive suffix test). -/
def strEndsWith (s pat : String) : Bool :=
  pat.data.isSuffixOf s.data

/-- Modelled from the spec: `esp::io::changeExtension` lives under `esp/io`
(not under src/). Spec section 4.2 step 2 describes the canonical-filename
computation as appending the fixed suffix, the separating dot included, to the
handle. -/
def changeExtension (file ext : String) : String :=
  file ++ "." ++ ext

/-- The canonical config filename computed inside `createObject`
(lines 37-43 of the source): the handle itself when its lowercasing contains
`"phys_properties.json"`, otherwise the handle with the extension changed to
that suffix. -/
def jsonAttrFileNameOf (attributesTemplateHandle : String) : String :=
  let strHandle := strLowercase attributesTemplateHandle
  if strFind strHandle "phys_properties.json" then attributesTemplateHandle
  else changeExtension attributesTemplateHandle "phys_properties.json"

/-! ### Template construction -/

/-- Modelled from the spec: the `ObjectAttributes` constructor lives in the
attributes library (not under src/). Spec section 3 fixes only that a freshly
built template is transient with `dirty = true`; the remaining field defaults
are placeholders no theorem depends on. -/
def ObjectAttributes.create (handle : String) : ObjectAttributes :=
  { handle := handle
    id := ID_UNDEFINED
    renderAssetHandle := ""
    collisionAssetHandle := ""
    renderAssetType := AssetType.UNKNOWN
    collisionAssetType := AssetType.UNKNOWN
    renderAssetIsPrimitive := false
    collisionAssetIsPrimitive := false
    margin := 1/25
    scale := ⟨1, 1, 1⟩
    mass := 1
    COM := ⟨0, 0, 0⟩
    inertia := ⟨0, 0, 0⟩
    boundingBoxCollisions := false
    joinCollisionMeshes := true
    computeCOMFromShape := true
    useMeshCollision := true
    orientUp := ⟨0, 1, 0⟩
    orientFront := ⟨0, 0, -1⟩
    isDirty := true }

/-- `ObjectAttributesManager::setDefaultAssetNameBasedAttributes`
(source lines 191-207): classify `meshHandle` against the primitive oracle to
choose the asset type passed to the setter, and, when `setFrame`, apply the
canonical up/front orientation vectors. -/
def setDefaultAssetNameBasedAttributes (env : Env) (attributes : ObjectAttributes)
    (setFrame : Bool) (meshHandle : String)
    (assetTypeSetter : ObjectAttributes → AssetType → ObjectAttributes) :
    ObjectAttributes :=
  let attributes :=
    if env.isValidPrimitiveAttributes meshHandle then
      assetTypeSetter attributes AssetType.PRIMITIVE
    else
      assetTypeSetter attributes AssetType.UNKNOWN
  if setFrame then
    { attributes with orientUp := ⟨0, 1, 0⟩, orientFront := ⟨0, 0, -1⟩ }
  else attributes

/-- `ObjectAttributesManager::initNewObjectInternal` (source lines 164-187):
build a fresh template, seed both asset handles with the input handle, then
classify each handle independently to set its asset-type field
(the base-class `setFileDirectoryFromHandle` bookkeeping is not modelled:
no claim mentions it). -/
def initNewObjectInternal (env : Env) (attributesHandle : String) : ObjectAttributes :=
  let newAttributes := ObjectAttributes.create attributesHandle
  let newAttributes :=
    { newAttributes with
        renderAssetHandle := attributesHandle
        collisionAssetHandle := attributesHandle }
  let newAttributes :=
    setDefaultAssetNameBasedAttributes env newAttributes true
      newAttributes.renderAssetHandle
      (fun a ty => { a with renderAssetType := ty })
  let newAttributes :=
    setDefaultAssetNameBasedAttributes env newAttributes false
      newAttributes.collisionAssetHandle
      (fun a ty => { a with collisionAssetType := ty })
  newAttributes

/-- Modelled from the spec: `io::jsonIntoSetter` / `io::jsonIntoConstSetter`
live under `esp/io` (not under src/). Per spec sections 6 and 9 they apply the
setter exactly when the tagged field is present in the document, and report
that presence. -/
def jsonIntoSetter {α : Type} (field : Option α) (a : ObjectAttributes)
    (setter : ObjectAttributes → α → ObjectAttributes) : Bool × ObjectAttributes :=
  match field with
  | some v => (true, setter a v)
  | none => (false, a)

/-- Modelled from the spec: `createObjectAttributesFromJson` lives in the
shared base manager (not under src/). It constructs the template for the name
and populates generic `AbstractObjectAttributes` fields from the document; none
of the recognized fields of an object configuration document (spec section 6)
are generic fields, so on this document model it reduces to fresh-template
construction. -/
def createObjectAttributesFromJson (env : Env) (templateName : String)
    (_jsonConfig : JsonDoc) : ObjectAttributes :=
  initNewObjectInternal env templateName

/-- `ObjectAttributesManager::loadFromJSONDoc` (source lines 123-162):
populate the object-specific fields that are present, and drive
`computeCOMFromShape` from the presence of `COM`. -/
def loadFromJSONDoc (env : Env) (templateName : String) (jsonConfig : JsonDoc) :
    ObjectAttributes :=
  let objAttributes := createObjectAttributesFromJson env templateName jsonConfig
  let objAttributes :=
    (jsonIntoSetter jsonConfig.mass objAttributes
      (fun a v => { a with mass := v })).2
  let objAttributes :=
    (jsonIntoSetter jsonConfig.useBoundingBoxForCollision objAttributes
      (fun a v => { a with boundingBoxCollisions := v })).2
  let objAttributes :=
    (jsonIntoSetter jsonConfig.joinCollisionMeshes objAttributes
      (fun a v => { a with joinCollisionMeshes := v })).2
  let objAttributes :=
    (jsonIntoSetter jsonConfig.inertia objAttributes
      (fun a v => { a with inertia := v })).2
  let comResult :=
    jsonIntoSetter jsonConfig.COM objAttributes
      (fun a v => { a with COM := v })
  let comIsSet := comResult.1
  let objAttributes := comResult.2
  { objAttributes with computeCOMFromShape := !comIsSet }

/-! ### Registry: finalize / commit -/

/-- Modelled from the spec: `addObjectToLibrary` belongs to the shared base
collaborator (not under src/). Spec sections 4.3 and 6: commit to the primary
map, obtaining a newly assigned stable id, the duplicate-handle policy being
owned elsewhere; modelled as assigning the next fresh id and stamping the
template with that id and the registration handle. -/
def addObjectToLibrary (st : RegistryState) (t : ObjectAttributes)
    (handle : String) : Int × ObjectAttributes × RegistryState :=
  let newID : Int := (st.nextTemplateID : Int)
  (newID,
   { t with id := newID, handle := handle },
   { st with
       templateLibrary := st.templateLibrary ++ [(newID, handle)]
       nextTemplateID := st.nextTemplateID + 1 })

/-- The outcome of `registerObjectFinalize`: the returned id, the (possibly
mutated) template, and the resulting Registry state. -/
structure FinalizeResult where
  id : Int
  template : ObjectAttributes
  state : RegistryState
deriving DecidableEq, Repr

/-- `ObjectAttributesManager::registerObjectFinalize` (source lines 209-287):
fail on an empty or unresolved render asset handle; classify the collision
asset handle with a non-fatal fallback onto the render asset; clear the dirty
flag; commit to the primary map and the origin-partitioned secondary map
selected by the render classification. -/
def registerObjectFinalize (env : Env) (st : RegistryState)
    (objectTemplate : ObjectAttributes) (objectTemplateHandle : String) :
    FinalizeResult :=
  if objectTemplate.renderAssetHandle = "" then
    { id := ID_UNDEFINED, template := objectTemplate, state := st }
  else
    let renderAssetHandle := objectTemplate.renderAssetHandle
    let collisionAssetHandle := objectTemplate.collisionAssetHandle
    -- render classification also selects `mapToUse` (true ↦ synth, false ↦ file)
    let renderClass : Option (ObjectAttributes × Bool) :=
      if env.isValidPrimitiveAttributes renderAssetHandle then
        some ({ objectTemplate with renderAssetIsPrimitive := true }, true)
      else if env.isValidFileName renderAssetHandle then
        some ({ objectTemplate with renderAssetIsPrimitive := false }, false)
      else none
    match renderClass with
    | none => { id := ID_UNDEFINED, template := objectTemplate, state := st }
    | some (t1, useSynthMap) =>
      let t2 :=
        if env.isValidPrimitiveAttributes collisionAssetHandle then
          { t1 with collisionAssetIsPrimitive := true }
        else if env.isValidFileName collisionAssetHandle then
          { t1 with collisionAssetIsPrimitive := false }
        else
          { t1 with
              collisionAssetHandle := renderAssetHandle
              collisionAssetIsPrimitive := t1.renderAssetIsPrimitive }
      let t3 := { t2 with isDirty := false }
      let r := addObjectToLibrary st t3 objectTemplateHandle
      let objectTemplateID := r.1
      let t4 := r.2.1
      let st1 := r.2.2
      let st2 :=
        if useSynthMap then
          { st1 with
              physicsSynthObjTmpltLibByID :=
                st1.physicsSynthObjTmpltLibByID ++
                  [(objectTemplateID, objectTemplateHandle)] }
        else
          { st1 with
              physicsFileObjTmpltLibByID :=
                st1.physicsFileObjTmpltLibByID ++
                  [(objectTemplateID, objectTemplateHandle)] }
      { id := objectTemplateID, template := t4, state := st2 }

/-- Modelled from the spec: `postCreateRegister` belongs to the shared base
manager (not under src/). Spec sections 4.2 and 7: `registerTemplate = false`
returns the built value without committing; `true` additionally invokes
finalize with the template's own handle, a failed registration surfacing as a
null result. -/
def postCreateRegister (env : Env) (st : RegistryState)
    (attributes : ObjectAttributes) (registerTemplate : Bool) :
    Option ObjectAttributes × RegistryState :=
  if registerTemplate then
    let r := registerObjectFinalize env st attributes attributes.handle
    if r.id = ID_UNDEFINED then (none, r.state) else (some r.template, r.state)
  else (some attributes, st)

/-! ### TemplateBuilder entry points -/

/-- `ObjectAttributesManager::createPrimBasedAttributesTemplate`
(source lines 73-107): abort (null) unless the handle names an existing
primitive; otherwise build a template with zero margin, uniform 0.1 scale,
Primitive render and collision asset types, and mesh collision disabled, then
apply the standard post-create registration. -/
def createPrimBasedAttributesTemplate (env : Env) (st : RegistryState)
    (primAttrTemplateHandle : String) (registerTemplate : Bool) :
    Option ObjectAttributes × RegistryState :=
  if !env.isValidPrimitiveAttributes primAttrTemplateHandle then
    (none, st)
  else
    let primObjectAttributes := initNewObjectInternal env primAttrTemplateHandle
    let primObjectAttributes :=
      { primObjectAttributes with
          margin := 0
          scale := ⟨1/10, 1/10, 1/10⟩
          renderAssetType := AssetType.PRIMITIVE
          collisionAssetType := AssetType.PRIMITIVE
          useMeshCollision := false }
    postCreateRegister env st primObjectAttributes registerTemplate

/-- Modelled from the spec: `createObjectFromFile` belongs to the shared base
manager (not under src/). Spec sections 4.2 step 2, 5 and 7: parse the
document at the path (a failed read surfaces immediately as a build failure
for that one file), build the file-based template via `loadFromJSONDoc`, and
apply the standard post-create registration. -/
def createObjectFromFile (env : Env) (st : RegistryState) (filename : String)
    (registerTemplate : Bool) : Option ObjectAttributes × RegistryState :=
  match env.parseDoc filename with
  | none => (none, st)
  | some doc =>
    let attrs := loadFromJSONDoc env filename doc
    postCreateRegister env st attrs registerTemplate

/-- Modelled from the spec: `createDefaultObject` belongs to the shared base
manager (not under src/). Spec section 4.2 steps 3-4: build a brand-new
default template named by the handle, then apply the standard post-create
registration. -/
def createDefaultObject (env : Env) (st : RegistryState) (handle : String)
    (registerTemplate : Bool) : Option ObjectAttributes × RegistryState :=
  postCreateRegister env st (initNewObjectInternal env handle) registerTemplate

/-- The outcome of `createObject`: the built template (null on a hard
failure), the resulting Registry state, and the diagnostic message the source
logs. -/
structure CreateResult where
  attrs : Option ObjectAttributes
  state : RegistryState
  msg : String
deriving DecidableEq, Repr

/-- `ObjectAttributesManager::createObject` (source lines 25-71): the
precedence rules for choosing how to build a template — existing primitive,
canonical config file, default (with the raw file's existence feeding only the
diagnostic message). -/
def createObject (env : Env) (st : RegistryState)
    (attributesTemplateHandle : String) (registerTemplate : Bool) :
    CreateResult :=
  if env.isValidPrimitiveAttributes attributesTemplateHandle then
    let r := createPrimBasedAttributesTemplate env st attributesTemplateHandle
               registerTemplate
    { attrs := r.1, state := r.2
      msg := "Primitive Asset (" ++ attributesTemplateHandle ++ ") Based" }
  else
    let jsonAttrFileName := jsonAttrFileNameOf attributesTemplateHandle
    let fileExists := env.isValidFileName attributesTemplateHandle
    let jsonFileExists := env.isValidFileName jsonAttrFileName
    if jsonFileExists then
      let r := createObjectFromFile env st jsonAttrFileName registerTemplate
      { attrs := r.1, state := r.2
        msg := "JSON File (" ++ jsonAttrFileName ++ ") Based" }
    else
      let r := createDefaultObject env st attributesTemplateHandle
                 registerTemplate
      { attrs := r.1, state := r.2
        msg :=
          if fileExists then
            "File (" ++ attributesTemplateHandle ++ ") Based"
          else
            "New default (" ++ attributesTemplateHandle ++ ")" }

/-! ### Seeding the protected primitives -/

/-- The loop body of `createDefaultPrimBasedAttributesTemplates`
(source lines 115-120): build and register a primitive-based template for each
library handle, inserting the resulting template's handle into the
protected set. The source dereferences the build result unconditionally, so
its behaviour is defined only when every build succeeds; a failed build is
modelled as `none` for the whole run. -/
def seedLoop (env : Env) (st : RegistryState) :
    List String → Option RegistryState
  | [] => some st
  | elem :: rest =>
    match createPrimBasedAttributesTemplate env st elem true with
    | (some tmplt, st1) =>
      seedLoop env
        { st1 with
            undeletableObjectNames :=
              st1.undeletableObjectNames.insert tmplt.handle } rest
    | (none, _) => none

/-- `ObjectAttributesManager::createDefaultPrimBasedAttributesTemplates`
(source lines 109-121): clear the protected-handle set, then seed it from the
externally supplied library of built-in primitive handles. -/
def createDefaultPrimBasedAttributesTemplates (env : Env) (st : RegistryState)
    (lib : List String) : Option RegistryState :=
  seedLoop env { st with undeletableObjectNames := [] } lib

/-! ### Batch loading -/

/-- `ObjectAttributesManager::loadAllFileBasedTemplates`
(source lines 289-309): one result slot per input filename, in order, read
from `tmplt->getID()`. The loop dereferences the per-file build result
unconditionally (`tmplt->getHandle()` line 301, `tmplt->getID()` line 304),
so a failed build — which `createObjectFromFile` surfaces as null — leaves the
call with no defined result: that dereference is embedded as `none` for the
whole call, with no recovery path. -/
def loadAllFileBasedTemplates (env : Env) (st : RegistryState)
    (tmpltFilenames : List String) (saveAsDefaults : Bool) :
    Option (List Int × RegistryState) :=
  match tmpltFilenames with
  | [] => some ([], st)
  | f :: rest =>
    let r := createObjectFromFile env st f true
    match r.1 with
    | some tmplt =>
      let st2 :=
        if saveAsDefaults then
          { r.2 with
              undeletableObjectNames :=
                r.2.undeletableObjectNames.insert tmplt.handle }
        else r.2
      match loadAllFileBasedTemplates env st2 rest saveAsDefaults with
      | some rec2 => some (tmplt.id :: rec2.1, rec2.2)
      | none => none
    | none => none

/-- The directory-scan loop of `loadObjectConfigs` (source lines 337-343):
keep, in listing order, each entry whose absolute path ends with the fixed
suffix. -/
def collectSuffixPaths (env : Env) (path : String) :
    List String → List String
  | [] => []
  | file :: rest =>
    let absoluteSubfilePath := env.joinPath path file
    if strEndsWith absoluteSubfilePath ".phys_properties.json" then
      absoluteSubfilePath :: collectSuffixPaths env path rest
    else
      collectSuffixPaths env path rest

/-- `ObjectAttributesManager::loadObjectConfigs` (source lines 311-349):
discover the canonical single-file candidate and/or the suffix-matching
directory entries, then batch-build every discovered file. -/
def loadObjectConfigs (env : Env) (st : RegistryState) (path : String)
    (saveAsDefaults : Bool) : Option (List Int × RegistryState) :=
  let objPhysPropertiesFilename :=
    if !strEndsWith path ".phys_properties.json" then
      path ++ ".phys_properties.json"
    else path
  let dirExists := env.isDirectory path
  let fileExists := env.existsPath objPhysPropertiesFilename
  if !dirExists && !fileExists then
    some ([], st)
  else
    let paths : List String :=
      (if fileExists then [objPhysPropertiesFilename] else []) ++
      (if dirExists then collectSuffixPaths env path (env.listSorted path)
       else [])
    loadAllFileBasedTemplates env st paths saveAsDefaults

/-! ### Concrete oracle environments used by the witnesses -/

/-- A concrete oracle environment: the only existing primitive handle is
`"p"`; no file exists. -/
def envPrimP : Env :=
  { isValidPrimitiveAttributes := fun s => s == "p"
    isValidFileName := fun _ => false
    isDirectory := fun _ => false
    existsPath := fun _ => false
    listSorted := fun _ => []
    joinPath := fun p f => p ++ "/" ++ f
    parseDoc := fun _ => none }

/-- A concrete template whose render asset handle is the primitive `"p"` and
whose collision asset handle `"c"` resolves to nothing. -/
def tmplRenderP : ObjectAttributes :=
  { ObjectAttributes.create "tpl" with
      renderAssetHandle := "p"
      collisionAssetHandle := "c" }

/-- A concrete template whose render asset handle `"x"` resolves to nothing. -/
def tmplRenderX : ObjectAttributes :=
  { ObjectAttributes.create "tpl" with
      renderAssetHandle := "x"
      collisionAssetHandle := "x" }

/-! ### C1: finalize fails iff the render asset handle is empty or unresolved -/

/-- C1. For every template submitted to `registerObjectFinalize`, the
operation returns the undefined ID sentinel if and only if the template's
render asset handle is the empty string or is resolved as neither an existing
primitive nor an existing file; in particular the right-hand side never
mentions the collision asset handle, so no value of it causes finalize to
fail. -/
theorem registerObjectFinalize_fails_iff (env : Env) (st : RegistryState)
    (t : ObjectAttributes) (h : String) :
    (registerObjectFinalize env st t h).id = ID_UNDEFINED ↔
      (t.renderAssetHandle = "" ∨
        (env.isValidPrimitiveAttributes t.renderAssetHandle = false ∧
         env.isValidFileName t.renderAssetHandle = false)) := by
  unfold registerObjectFinalize
  by_cases he : t.renderAssetHandle = ""
  · simp [he, ID_UNDEFINED]
  · by_cases hp : env.isValidPrimitiveAttributes t.renderAssetHandle
    · simp [he, hp, addObjectToLibrary, ID_UNDEFINED]
    · by_cases hf : env.isValidFileName t.renderAssetHandle
      · simp [he, hp, hf, addObjectToLibrary, ID_UNDEFINED]
      · simp [he, hp, hf, ID_UNDEFINED]

/-! ### C2: unresolved collision asset falls back onto the render asset -/

/-- C2. For every template whose collision asset handle resolves to neither an
existing primitive nor an existing file, after a successful finalize the
template's collision asset handle equals its render asset handle and its
collision origin flag equals its render origin flag. -/
theorem registerObjectFinalize_collision_fallback (env : Env)
    (st : RegistryState) (t : ObjectAttributes) (h : String)
    (hcp : env.isValidPrimitiveAttributes t.collisionAssetHandle = false)
    (hcf : env.isValidFileName t.collisionAssetHandle = false)
    (hsucc : (registerObjectFinalize env st t h).id ≠ ID_UNDEFINED) :
    (registerObjectFinalize env st t h).template.collisionAssetHandle =
      (registerObjectFinalize env st t h).template.renderAssetHandle ∧
    (registerObjectFinalize env st t h).template.collisionAssetIsPrimitive =
      (registerObjectFinalize env st t h).template.renderAssetIsPrimitive := by
  unfold registerObjectFinalize at hsucc ⊢
  by_cases he : t.renderAssetHandle = ""
  · simp [he] at hsucc
  · by_cases hp : env.isValidPrimitiveAttributes t.renderAssetHandle
    · simp [he, hp, hcp, hcf, addObjectToLibrary]
    · by_cases hf : env.isValidFileName t.renderAssetHandle
      · simp [he, hp, hf, hcp, hcf, addObjectToLibrary]
      · simp [he, hp, hf] at hsucc

/-- Witness for C2 at a concrete input: render handle `"p"` is a primitive,
collision handle `"c"` resolves to nothing, and the finalize succeeds. -/
theorem registerObjectFinalize_collision_fallback_witness :
    (registerObjectFinalize envPrimP st0 tmplRenderP "tpl").template.collisionAssetHandle =
      (registerObjectFinalize envPrimP st0 tmplRenderP "tpl").template.renderAssetHandle ∧
    (registerObjectFinalize envPrimP st0 tmplRenderP "tpl").template.collisionAssetIsPrimitive =
      (registerObjectFinalize envPrimP st0 tmplRenderP "tpl").template.renderAssetIsPrimitive :=
  registerObjectFinalize_collision_fallback envPrimP st0 tmplRenderP "tpl"
    (by decide) (by decide) (by decide)

/-! ### C6: a step-1 failure leaves the Registry untouched -/

/-- C6. Whenever finalize fails at step 1 (empty or unresolved render asset
handle), the Registry state is unchanged — nothing is committed to the primary
map or either secondary map and no ID is consumed — the template is not
mutated, and the call returns the undefined sentinel. -/
theorem registerObjectFinalize_failure_preserves_state (env : Env)
    (st : RegistryState) (t : ObjectAttributes) (h : String)
    (hfail : t.renderAssetHandle = "" ∨
      (env.isValidPrimitiveAttributes t.renderAssetHandle = false ∧
       env.isValidFileName t.renderAssetHandle = false)) :
    (registerObjectFinalize env st t h).id = ID_UNDEFINED ∧
    (registerObjectFinalize env st t h).state = st ∧
    (registerObjectFinalize env st t h).template = t := by
  unfold registerObjectFinalize
  rcases hfail with he | ⟨hp, hf⟩
  · simp [he]
  · by_cases he : t.renderAssetHandle = ""
    · simp [he]
    · simp [he, hp, hf]

/-- Witness for C6 at a concrete input: render handle `"x"` resolves to
nothing in `envPrimP`. -/
theorem registerObjectFinalize_failure_preserves_state_witness :
    (registerObjectFinalize envPrimP st0 tmplRenderX "tpl").id = ID_UNDEFINED ∧
    (registerObjectFinalize envPrimP st0 tmplRenderX "tpl").state = st0 ∧
    (registerObjectFinalize envPrimP st0 tmplRenderX "tpl").template = tmplRenderX :=
  registerObjectFinalize_failure_preserves_state envPrimP st0 tmplRenderX "tpl"
    (Or.inr (by exact ⟨by decide, by decide⟩))

/-! ### C3: the canonical config filename computation -/

/-- The canonical-filename computation as the claim words it: leave the handle
unchanged when, case-insensitively, it already carries the suffix
`".phys_properties.json"`, and append that fixed suffix otherwise. -/
def jsonAttrFileNameClaim (handle : String) : String :=
  if strEndsWith (strLowercase handle) ".phys_properties.json" then handle
  else handle ++ ".phys_properties.json"

/-- C3 counterexample: `"xphys_properties.json"` contains
`"phys_properties.json"` as a substring, so the source leaves it unchanged,
but it does not carry the suffix `".phys_properties.json"`, so the claim as
stated would append. -/
theorem jsonAttrFileNameOf_ne_claim :
    jsonAttrFileNameOf "xphys_properties.json" ≠
      jsonAttrFileNameClaim "xphys_properties.json" := by
  decide

/-- `containsSub` agrees with "some tail of the text starts with the
pattern". -/
theorem containsSub_eq_any_tails (pat : List Char) (l : List Char) :
    containsSub pat l = (l.tails).any (fun t => pat.isPrefixOf t) := by
  induction l with
  | nil => simp [containsSub]
  | cons c t ih => simp [containsSub, ih]

/-- String concatenation is associative. -/
theorem str_append_assoc (a b c : String) : a ++ b ++ c = a ++ (b ++ c) := by
  apply String.ext
  simp

/-- C3 amended. For every handle, the canonical config filename used by
`createObject` is the handle itself when the lowercased handle contains
`"phys_properties.json"` (no leading dot) anywhere as a substring, and the
handle with `".phys_properties.json"` appended otherwise: the check the source
performs is case-insensitive substring containment, not a suffix test. -/
theorem jsonAttrFileNameOf_amended (handle : String) :
    jsonAttrFileNameOf handle =
      if ((strLowercase handle).data.tails).any
           (fun t => ("phys_properties.json").data.isPrefixOf t) then handle
      else handle ++ ".phys_properties.json" := by
  unfold jsonAttrFileNameOf strFind changeExtension
  simp only [containsSub_eq_any_tails]
  split
  · rfl
  · rw [str_append_assoc]
    congr 1

/-! ### C8: COM presence drives computeCOMFromShape -/

/-- The example document `{"mass": 2.5, "COM": [0,0,0]}`. -/
def docMassCOM : JsonDoc :=
  { mass := some (5/2), COM := some ⟨0, 0, 0⟩ }

/-- The example document `{"mass": 2.5}` (same document without `"COM"`). -/
def docMassOnly : JsonDoc :=
  { mass := some (5/2) }

/-- C8. For every JSON configuration document, the template produced by
`loadFromJSONDoc` has `computeCOMFromShape = false` exactly when the document
contains a `"COM"` field — presence, not value, drives the flag. In
particular `{"mass": 2.5, "COM": [0,0,0]}` yields mass `2.5`,
COM `(0,0,0)` and `computeCOMFromShape = false`, and the same document
without `"COM"` yields `computeCOMFromShape = true` with COM left at the value
the brand-new template carried. -/
theorem loadFromJSONDoc_computeCOMFromShape (env : Env) (name : String)
    (doc : JsonDoc) :
    ((loadFromJSONDoc env name doc).computeCOMFromShape = false ↔
       doc.COM.isSome = true) ∧
    ((loadFromJSONDoc env name docMassCOM).mass = 5/2 ∧
     (loadFromJSONDoc env name docMassCOM).COM = ⟨0, 0, 0⟩ ∧
     (loadFromJSONDoc env name docMassCOM).computeCOMFromShape = false) ∧
    ((loadFromJSONDoc env name docMassOnly).computeCOMFromShape = true ∧
     (loadFromJSONDoc env name docMassOnly).COM =
       (createObjectAttributesFromJson env name docMassOnly).COM) := by
  refine ⟨?_, ?_, ?_⟩
  · cases hc : doc.COM <;>
      simp [loadFromJSONDoc, jsonIntoSetter, hc]
  · simp [loadFromJSONDoc, jsonIntoSetter, docMassCOM]
  · simp [loadFromJSONDoc, jsonIntoSetter, docMassOnly]

/-! ### C5: primitive-based construction defaults -/

/-- C5. For every handle that resolves to an existing primitive-attributes
definition (primitive handles are non-empty), `createObject` returns a
template — whether or not it is also registered — with collision margin 0,
scale `(0.1, 0.1, 0.1)`, render asset type Primitive, collision asset type
Primitive, and mesh-based collision disabled. -/
theorem createObject_prim_defaults (env : Env) (st : RegistryState)
    (handle : String) (registerTemplate : Bool)
    (hp : env.isValidPrimitiveAttributes handle = true) (hne : handle ≠ "") :
    ((createObject env st handle registerTemplate).attrs).isSome = true ∧
    (((createObject env st handle registerTemplate).attrs).getD
        (ObjectAttributes.create "")).margin = 0 ∧
    (((createObject env st handle registerTemplate).attrs).getD
        (ObjectAttributes.create "")).scale = ⟨1/10, 1/10, 1/10⟩ ∧
    (((createObject env st handle registerTemplate).attrs).getD
        (ObjectAttributes.create "")).renderAssetType = AssetType.PRIMITIVE ∧
    (((createObject env st handle registerTemplate).attrs).getD
        (ObjectAttributes.create "")).collisionAssetType = AssetType.PRIMITIVE ∧
    (((createObject env st handle registerTemplate).attrs).getD
        (ObjectAttributes.create "")).useMeshCollision = false := by
  unfold createObject createPrimBasedAttributesTemplate postCreateRegister
  cases registerTemplate with
  | false =>
    simp [hp, initNewObjectInternal, setDefaultAssetNameBasedAttributes,
      ObjectAttributes.create]
  | true =>
    simp [hp, hne, registerObjectFinalize, addObjectToLibrary, ID_UNDEFINED,
      initNewObjectInternal, setDefaultAssetNameBasedAttributes,
      ObjectAttributes.create]

/-- Witness for C5 at a concrete input: handle `"p"` is a primitive in
`envPrimP`, with registration requested. -/
theorem createObject_prim_defaults_witness :
    ((createObject envPrimP st0 "p" true).attrs).isSome = true ∧
    (((createObject envPrimP st0 "p" true).attrs).getD
        (ObjectAttributes.create "")).margin = 0 ∧
    (((createObject envPrimP st0 "p" true).attrs).getD
        (ObjectAttributes.create "")).scale = ⟨1/10, 1/10, 1/10⟩ ∧
    (((createObject envPrimP st0 "p" true).attrs).getD
        (ObjectAttributes.create "")).renderAssetType = AssetType.PRIMITIVE ∧
    (((createObject envPrimP st0 "p" true).attrs).getD
        (ObjectAttributes.create "")).collisionAssetType = AssetType.PRIMITIVE ∧
    (((createObject envPrimP st0 "p" true).attrs).getD
        (ObjectAttributes.create "")).useMeshCollision = false :=
  createObject_prim_defaults envPrimP st0 "p" true (by decide) (by decide)

/-! ### C9: seeding the protected-handle set -/

/-- Building and registering a primitive-based template for a valid, non-empty
primitive handle succeeds, yields a template whose handle is that handle, and
leaves the protected-handle set untouched. -/
theorem createPrimBasedAttributesTemplate_success (env : Env)
    (st : RegistryState) (h : String)
    (hp : env.isValidPrimitiveAttributes h = true) (hne : h ≠ "") :
    ∃ t st1, createPrimBasedAttributesTemplate env st h true = (some t, st1) ∧
      t.handle = h ∧
      st1.undeletableObjectNames = st.undeletableObjectNames := by
  unfold createPrimBasedAttributesTemplate postCreateRegister
    registerObjectFinalize
  simp [hp, hne, addObjectToLibrary, ID_UNDEFINED, initNewObjectInternal,
    setDefaultAssetNameBasedAttributes, ObjectAttributes.create]
  exact ⟨_, _, ⟨rfl, rfl⟩, rfl, rfl⟩

/-- The seeding loop succeeds on a library of valid, non-empty primitive
handles, and the resulting protected set holds exactly the prior protected
handles plus the library handles. -/
theorem seedLoop_protected_set (env : Env) (lib : List String)
    (hvalid : ∀ x ∈ lib, env.isValidPrimitiveAttributes x = true)
    (hne : ∀ x ∈ lib, x ≠ "") :
    ∀ st : RegistryState, ∃ st1, seedLoop env st lib = some st1 ∧
      ∀ x, x ∈ st1.undeletableObjectNames ↔
        (x ∈ st.undeletableObjectNames ∨ x ∈ lib) := by
  induction lib with
  | nil =>
    intro st
    exact ⟨st, rfl, fun x => by simp⟩
  | cons e rest ih =>
    intro st
    obtain ⟨t, st1, heq, hth, hun⟩ :=
      createPrimBasedAttributesTemplate_success env st e
        (hvalid e (by simp)) (hne e (by simp))
    obtain ⟨st2, hseq, hmem⟩ :=
      ih (fun x hx => hvalid x (by simp [hx]))
        (fun x hx => hne x (by simp [hx]))
        { st1 with
            undeletableObjectNames :=
              st1.undeletableObjectNames.insert t.handle }
    refine ⟨st2, ?_, ?_⟩
    · simp only [seedLoop, heq]
      exact hseq
    · intro x
      rw [hmem x]
      simp only [List.mem_insert_iff, hun, hth, List.mem_cons]
      tauto

/-- C9. After `createDefaultPrimBasedAttributesTemplates` runs on an
externally supplied library of built-in primitive handles (valid, non-empty
primitives), the run succeeds and the protected-handle set contains exactly
the handles of the templates built during that run — the set is cleared first,
then the handle of each built-and-registered template is inserted. -/
theorem createDefaultPrimBasedAttributesTemplates_protected_set (env : Env)
    (st : RegistryState) (lib : List String)
    (hvalid : ∀ x ∈ lib, env.isValidPrimitiveAttributes x = true)
    (hne : ∀ x ∈ lib, x ≠ "") :
    (createDefaultPrimBasedAttributesTemplates env st lib).isSome = true ∧
    ((createDefaultPrimBasedAttributesTemplates env st lib).getD
        st0).undeletableObjectNames.toFinset = lib.toFinset := by
  obtain ⟨st1, heq, hmem⟩ :=
    seedLoop_protected_set env lib hvalid hne
      { st with undeletableObjectNames := [] }
  rw [createDefaultPrimBasedAttributesTemplates, heq]
  refine ⟨rfl, ?_⟩
  ext x
  simpa using hmem x

/-- Witness for C9 at a concrete input: the library `["p"]` of the sole
primitive handle of `envPrimP`. -/
theorem createDefaultPrimBasedAttributesTemplates_protected_set_witness :
    (createDefaultPrimBasedAttributesTemplates envPrimP st0 ["p"]).isSome = true ∧
    ((createDefaultPrimBasedAttributesTemplates envPrimP st0 ["p"]).getD
        st0).undeletableObjectNames.toFinset = (["p"] : List String).toFinset :=
  createDefaultPrimBasedAttributesTemplates_protected_set envPrimP st0 ["p"]
    (by decide) (by decide)

/-! ### C4: the batch loader at a failed per-file build -/

/-- C4 (code bug, evaluated at the failing input). In `envPrimP` no document
parses, so the build of `"f"` yields no template; the batch loop of
`loadAllFileBasedTemplates` then dereferences that null result unconditionally
(`tmplt->getHandle()` line 301, `tmplt->getID()` line 304) and has no defined
result at all — no slot retains the undefined sentinel and no remaining file
is processed — although the loop's own initialization of every slot to
`ID_UNDEFINED` (line 292) and the spec (section 4.4) both describe the
sentinel-and-continue behaviour the claim states. -/
theorem loadAllFileBasedTemplates_failed_build_undefined :
    (createObjectFromFile envPrimP st0 "f" true).1 = none ∧
    loadAllFileBasedTemplates envPrimP st0 ["f"] true = none :=
  ⟨rfl, rfl⟩

/-! ### C7: discovery policy of loadObjectConfigs -/

/-- The canonical single-file candidate: the path with the fixed suffix
appended unless the path already ends with it. -/
def canonicalCandidate (path : String) : String :=
  if !strEndsWith path ".phys_properties.json" then
    path ++ ".phys_properties.json"
  else path

/-- The directory-scan loop keeps, in listing order, exactly the joined
entries ending with the fixed suffix. -/
theorem collectSuffixPaths_eq_filter (env : Env) (path : String)
    (l : List String) :
    collectSuffixPaths env path l =
      (l.map (env.joinPath path)).filter
        (fun p => strEndsWith p ".phys_properties.json") := by
  induction l with
  | nil => rfl
  | cons f rest ih =>
    simp only [collectSuffixPaths, List.map_cons, List.filter_cons]
    split <;> simp_all

/-- C7. `loadObjectConfigs` processes exactly this file list: the canonical
single-file candidate when it exists, followed by — when the path is a
directory — every listed entry whose joined absolute path ends with the fixed
suffix, in listing (ascending) order, with no deduplication between the two;
when the path is neither a directory nor the candidate an existing file the
processed list is empty and the call returns an empty sequence with the state
unchanged. -/
theorem loadObjectConfigs_discovery (env : Env) (st : RegistryState)
    (path : String) (save : Bool) :
    loadObjectConfigs env st path save =
      loadAllFileBasedTemplates env st
        ((if env.existsPath (canonicalCandidate path) then
            [canonicalCandidate path]
          else []) ++
         (if env.isDirectory path then
            ((env.listSorted path).map (env.joinPath path)).filter
              (fun p => strEndsWith p ".phys_properties.json")
          else [])) save := by
  unfold loadObjectConfigs canonicalCandidate
  by_cases hs : strEndsWith path ".phys_properties.json"
  · by_cases hd : env.isDirectory path <;>
      by_cases hf : env.existsPath path <;>
        simp [hs, hd, hf, collectSuffixPaths_eq_filter,
          loadAllFileBasedTemplates]
  · by_cases hd : env.isDirectory path <;>
      by_cases hf : env.existsPath (path ++ ".phys_properties.json") <;>
        simp [hs, hd, hf, collectSuffixPaths_eq_filter,
          loadAllFileBasedTemplates]

/-! ### C10: steps 3 and 4 of createObject -/

/-- A concrete oracle environment in which nothing exists. -/
def envNoPrim : Env :=
  { isValidPrimitiveAttributes := fun _ => false
    isValidFileName := fun _ => false
    isDirectory := fun _ => false
    existsPath := fun _ => false
    listSorted := fun _ => []
    joinPath := fun p f => p ++ "/" ++ f
    parseDoc := fun _ => none }

/-- `envNoPrim` with the raw handle `"obj"` existing as a file (its canonical
config candidate still does not exist, so step 2 is not taken). -/
def envRawFileObj : Env :=
  { envNoPrim with isValidFileName := fun s => s == "obj" }

/-- C10 counterexample: for the handle `"obj"` — neither a valid primitive
nor resolvable as a canonical config file — flipping only the raw file's
existence changes the outcome of `createObject` with registration requested:
with the raw file present, finalize resolves the render asset as a file and
commits; without it, finalize fails, so the returned template and the
Registry state both differ, not just the diagnostic message. -/
theorem createObject_raw_file_affects_registration :
    ¬((createObject envRawFileObj st0 "obj" true).attrs =
        (createObject envNoPrim st0 "obj" true).attrs ∧
      (createObject envRawFileObj st0 "obj" true).state =
        (createObject envNoPrim st0 "obj" true).state) := by
  decide

/-- C10 amended. For every handle that is neither a valid primitive nor
resolvable as a canonical config file, `createObject` with
`registerTemplate = false` builds exactly the same default template whether or
not the raw handle names an existing file: steps 3 and 4 of the decision order
invoke the identical default-construction routine, and the raw file's
existence influences only the diagnostic message, not any field of the built
template or any Registry state. (With `registerTemplate = true` the
subsequent finalize re-consults the raw handle's file existence, so the
registration outcome and the Registry state may differ.) -/
theorem createObject_default_independent_of_raw_file (env1 env2 : Env)
    (st : RegistryState) (handle : String)
    (hprim : env1.isValidPrimitiveAttributes = env2.isValidPrimitiveAttributes)
    (h1 : env1.isValidPrimitiveAttributes handle = false)
    (hj1 : env1.isValidFileName (jsonAttrFileNameOf handle) = false)
    (hj2 : env2.isValidFileName (jsonAttrFileNameOf handle) = false) :
    (createObject env1 st handle false).attrs =
      (createObject env2 st handle false).attrs ∧
    (createObject env1 st handle false).state =
      (createObject env2 st handle false).state := by
  have h2 : env2.isValidPrimitiveAttributes handle = false := by
    rw [← hprim]; exact h1
  have hinit : initNewObjectInternal env1 handle =
      initNewObjectInternal env2 handle := by
    simp [initNewObjectInternal, setDefaultAssetNameBasedAttributes, hprim]
  simp [createObject, h1, h2, hj1, hj2, createDefaultObject,
    postCreateRegister, hinit]

/-- Witness for the amended C10 at a concrete input: the handle `"obj"` is a
raw file in one environment and nothing in the other, and the unregistered
build results coincide. -/
theorem createObject_default_independent_of_raw_file_witness :
    (createObject envNoPrim st0 "obj" false).attrs =
      (createObject envRawFileObj st0 "obj" false).attrs ∧
    (createObject envNoPrim st0 "obj" false).state =
      (createObject envRawFileObj st0 "obj" false).state :=
  createObject_default_independent_of_raw_file envNoPrim envRawFileObj st0 "obj"
    rfl (by decide) (by decide) (by decide)

end HabitatObjAttr
